import Mathlib

/-!
Verification of the per-guild music playback engine of the playstats bot
(`internal/discord/music.go`).  The Go code is shallowly embedded: each Go
function that the claims depend on becomes a Lean function over explicit
state, external effects (chat messages, process spawns, voice-transport
calls) are recorded in an event trace, and the results of external
collaborators (the YouTube metadata API, the yt-dlp extractor, ffmpeg, the
Opus encoder, the voice transport) are supplied as explicit oracles.
-/

set_option autoImplicit false

namespace PlayStats

/-- Go struct MusicTrack: title, URL, duration (time.Duration, modelled as
nanoseconds; 0 = unknown), requester, output channel id, thumbnail. -/
structure MusicTrack where
  title : String
  url : String
  duration : Nat
  requester : String
  channelID : String
  thumbnail : String
deriving DecidableEq

/-- The volume value 0.5 that getOrCreateMusicSession writes into a fresh
queue, as the exact rational 1/2. -/
def halfVolume : Rat := ⟨1, 2, by decide, by decide⟩

/-- Go struct MusicQueue: tracks, isPlaying, current index, loop flag,
volume (float64 in the Go code; only the exact value 0.5 ever occurs, so
the embedding uses Rat). -/
structure MusicQueue where
  tracks : List MusicTrack
  isPlaying : Bool
  current : Nat
  loop : Bool
  volume : Rat
deriving DecidableEq

/-- Voice connection handle (discordgo.VoiceConnection): only the Ready
flag is observed by the embedded code. -/
structure VoiceConn where
  ready : Bool
deriving DecidableEq

/-- Go struct MusicSession: queue, optional voice connection, last error
(never written in the embedded file). -/
structure MusicSession where
  queue : MusicQueue
  voiceConn : Option VoiceConn
  lastError : Option String
deriving DecidableEq

/-- Externally visible effects of the handlers and of the playback
pipeline, in program order. -/
inductive Event where
  | msg (text : String)
  | editMsg (text : String)
  | queueAdded (t : MusicTrack)
  | nowPlayingAt (i : Nat) (t : MusicTrack)
  | spawnExtractor (url : String)
  | spawnDecode (url : String)
  | speakingOn
  | speakingOff
  | sendFrame
  | disconnect
  | startWorker (guildID : String)
  | voiceJoin (channelID : String)
deriving DecidableEq

/-! ## URL classification (isYouTubeURL / isSpotifyURL)

The Go code matches the query against anchored regular expressions; each
pattern is a literal prefix with an optional `www.` and an optional `s` in
the scheme, so classification is a disjunction of literal-prefix tests. -/

/-- Prefix test on character lists (the anchored-regex match). -/
def leadsWith : List Char → List Char → Bool
  | [], _ => true
  | _ :: _, [] => false
  | a :: p, b :: s => a == b && leadsWith p s

/-- Substring test on character lists (strings.Contains). -/
def containsSeq (p : List Char) : List Char → Bool
  | [] => leadsWith p []
  | c :: s => leadsWith p (c :: s) || containsSeq p s

/-- Whether url starts with `http://rest` or `https://rest` (the `https?`
scheme alternative of the anchored patterns). -/
def schemeMatch (rest : String) (url : String) : Bool :=
  leadsWith ("http://" ++ rest).data url.data ||
    leadsWith ("https://" ++ rest).data url.data

/-- Go isYouTubeURL: three anchored patterns (watch URL, short link,
playlist), each with an optional `www.`. -/
def isYouTubeURL (url : String) : Bool :=
  schemeMatch "youtube.com/watch?v=" url || schemeMatch "www.youtube.com/watch?v=" url ||
    schemeMatch "youtu.be/" url ||
    schemeMatch "youtube.com/playlist?" url || schemeMatch "www.youtube.com/playlist?" url

/-- Go isSpotifyURL: anchored pattern for open.spotify.com links. -/
def isSpotifyURL (url : String) : Bool :=
  schemeMatch "open.spotify.com/" url

/-! ## Session registry (musicSessions map, getOrCreateMusicSession) -/

/-- The per-guild session map `musicSessions`, modelled functionally. -/
def Sessions : Type := String → Option MusicSession

/-- The fresh queue built by getOrCreateMusicSession. -/
def freshQueue : MusicQueue :=
  { tracks := [], isPlaying := false, current := 0, loop := false, volume := halfVolume }

/-- The fresh session built by getOrCreateMusicSession. -/
def freshSession : MusicSession :=
  { queue := freshQueue, voiceConn := none, lastError := none }

/-- Go getOrCreateMusicSession: return the existing session, or insert and
return a fresh one. -/
def getOrCreateMusicSession (ms : Sessions) (guildID : String) : MusicSession × Sessions :=
  match ms guildID with
  | some s => (s, ms)
  | none => (freshSession, fun g => if g = guildID then some freshSession else ms g)

/-- Pointer-style in-place update of a session, as a map update. -/
def updateSession (ms : Sessions) (guildID : String) (s : MusicSession) : Sessions :=
  fun g => if g = guildID then some s else ms g

/-! ## Source resolution (extractMusicInfo and friends) -/

/-- One youtube.Format: itag number, MIME type, direct media URL. -/
structure Format where
  itagNo : Nat
  mimeType : String
  url : String
deriving DecidableEq

/-- Metadata returned by ytClient.GetVideo: title, duration, thumbnails and
the audio formats (video.Formats.WithAudioChannels()). -/
structure VideoInfo where
  title : String
  duration : Nat
  thumbnails : List String
  audioFormats : List Format
deriving DecidableEq

/-- Oracle for the two external metadata collaborators: the YouTube API
call (ytClient.GetVideo) and the raw stdout of `yt-dlp --get-title`. -/
structure YtApi where
  getVideo : String → Except String VideoInfo
  ytDlpTitle : String → Except String String

/-- The error text of extractSpotifyInfo. -/
def spotifyUnsupportedMsg : String :=
  "spotify integration belum tersedia. silakan gunakan YouTube URL atau cari lagu dengan kata kunci"

/-- The error text of searchYouTube. -/
def searchUnsupportedMsg : String :=
  "fitur pencarian YouTube belum tersedia. silakan gunakan URL YouTube langsung atau gunakan format: `@bot https://youtube.com/watch?v=VIDEO_ID`"

/-- Go extractWithYtDlp: spawn `yt-dlp --get-title`; on success with
non-empty output the trimmed output is the title, otherwise the default
"YouTube Video"; always succeeds, with zero duration and no thumbnail. -/
def extractWithYtDlp (api : YtApi) (url : String) : Except String MusicTrack × List Event :=
  let title : String :=
    match api.ytDlpTitle url with
    | .ok raw => if raw.length > 0 then raw.trim else "YouTube Video"
    | .error _ => "YouTube Video"
  (.ok { title := title, url := url, duration := 0, requester := "", channelID := "",
         thumbnail := "" },
   [Event.spawnExtractor url])

/-- Go extractYouTubeInfo: query the metadata API; on failure fall back to
extractWithYtDlp; on success build the track from the API metadata (first
thumbnail, or none). -/
def extractYouTubeInfo (api : YtApi) (url : String) : Except String MusicTrack × List Event :=
  match api.getVideo url with
  | .error _ => extractWithYtDlp api url
  | .ok v =>
    (.ok { title := v.title, url := url, duration := v.duration, requester := "",
           channelID := "", thumbnail := v.thumbnails.headD "" },
     [])

/-- Go extractMusicInfo: classify the query and dispatch; Spotify links and
free-text search both fail with an explicit error and no side effect. -/
def extractMusicInfo (api : YtApi) (query : String) : Except String MusicTrack × List Event :=
  if isYouTubeURL query then extractYouTubeInfo api query
  else if isSpotifyURL query then (.error spotifyUnsupportedMsg, [])
  else (.error searchUnsupportedMsg, [])

/-! ## Queue state transitions (the field mutations of the Go handlers
and of startMusicPlayer) -/

/-- Enqueue as performed by handlePlayMusic: append the track, and (via the
started or already-running worker) the playing flag is set. -/
def enqueueStart (q : MusicQueue) (t : MusicTrack) : MusicQueue :=
  { q with tracks := q.tracks ++ [t], isPlaying := true }

/-- The skip mutation: `session.Queue.Current++` (no upper bound check). -/
def skipOne (q : MusicQueue) : MusicQueue :=
  { q with current := q.current + 1 }

/-- The stop mutation: stop playing, clear tracks, reset the index. -/
def stopQueue (q : MusicQueue) : MusicQueue :=
  { q with isPlaying := false, tracks := [], current := 0 }

/-- The loop-command mutation: flip the loop flag. -/
def toggleLoop (q : MusicQueue) : MusicQueue :=
  { q with loop := !q.loop }

/-- The per-track advance at the bottom of the startMusicPlayer loop:
`Current++`, then wrap to 0 when the queue is exhausted and loop is set. -/
def advanceQueue (q : MusicQueue) : MusicQueue :=
  let q1 : MusicQueue := { q with current := q.current + 1 }
  if q.tracks.length ≤ q1.current && q.loop then { q1 with current := 0 } else q1

/-- The epilogue of startMusicPlayer once the while condition fails:
playing flag down, index reset to 0 (tracks are retained). -/
def exitQueue (q : MusicQueue) : MusicQueue :=
  { q with isPlaying := false, current := 0 }

/-! ## Command handlers -/

/-- Go handleSkipCommand: reject an empty queue, else increment Current. -/
def handleSkipCommand (ms : Sessions) (guildID : String) : Sessions × List Event :=
  let r := getOrCreateMusicSession ms guildID
  if r.1.queue.tracks.length = 0 then
    (r.2, [Event.msg "❌ Tidak ada lagu dalam queue!"])
  else
    (updateSession r.2 guildID { r.1 with queue := skipOne r.1.queue },
     [Event.msg "⏭️ Melompati lagu saat ini..."])

/-- Go handleStopCommand: stop playing, clear the queue, reset the index,
disconnect and drop the voice connection when one exists. -/
def handleStopCommand (ms : Sessions) (guildID : String) : Sessions × List Event :=
  let r := getOrCreateMusicSession ms guildID
  let stopped : MusicSession :=
    { queue := stopQueue r.1.queue, voiceConn := none, lastError := r.1.lastError }
  let evs : List Event :=
    (match r.1.voiceConn with
     | some _ => [Event.disconnect]
     | none => []) ++ [Event.msg "⏹️ Musik dihentikan dan queue dibersihkan."]
  (updateSession r.2 guildID stopped, evs)

/-- Go handleLoopCommand: flip the loop flag and report the new state. -/
def handleLoopCommand (ms : Sessions) (guildID : String) : Sessions × List Event :=
  let r := getOrCreateMusicSession ms guildID
  let toggled : MusicSession := { r.1 with queue := toggleLoop r.1.queue }
  let status : String := if toggled.queue.loop then "✅ ON" else "❌ OFF"
  (updateSession r.2 guildID toggled, [Event.msg ("🔁 Loop mode: " ++ status)])

/-- Go handleVolumeCommand: usage message when no argument; otherwise only
get-or-create the session and acknowledge the argument.  No field of the
queue is written. -/
def handleVolumeCommand (ms : Sessions) (guildID : String) (parts : List String) :
    Sessions × List Event :=
  if parts.length < 2 then
    (ms, [Event.msg "❌ Format: `@bot volume [0-100]`"])
  else
    ((getOrCreateMusicSession ms guildID).2,
     [Event.msg ("🔊 Volume diatur ke: " ++ parts.getD 1 "")])

/-- Oracle for connectToVoice (ChannelVoiceJoin plus the readiness wait):
either a ready connection or the error reported to the user. -/
structure ConnectEnv where
  join : Except String VoiceConn

/-- Go handlePlayMusic: resolve the query (on failure: edit the loading
message with the error and change nothing else), else append the track to
the guild queue, join voice if there is no ready connection, and start a
worker when none is playing. -/
def handlePlayMusic (api : YtApi) (env : ConnectEnv) (ms : Sessions)
    (guildID query author textChannel voiceChannel : String) : Sessions × List Event :=
  let loading := Event.msg "🔍 Mencari lagu..."
  match extractMusicInfo api query with
  | (.error e, exEvs) =>
    (ms, loading :: exEvs ++ [Event.editMsg ("❌ Gagal mengambil informasi lagu: " ++ e)])
  | (.ok t, exEvs) =>
    let t' : MusicTrack := { t with requester := author, channelID := textChannel }
    let r := getOrCreateMusicSession ms guildID
    let sess1 : MusicSession :=
      { r.1 with queue := { r.1.queue with tracks := r.1.queue.tracks ++ [t'] } }
    let ms2 := updateSession r.2 guildID sess1
    let baseEvs := loading :: exEvs ++ [Event.queueAdded t']
    let needJoin : Bool :=
      match sess1.voiceConn with
      | none => true
      | some c => !c.ready
    let workerEvs : List Event :=
      if sess1.queue.isPlaying then [] else [Event.startWorker guildID]
    if needJoin then
      match env.join with
      | .error e =>
        (ms2, baseEvs ++ [Event.voiceJoin voiceChannel,
          Event.msg ("❌ Gagal bergabung ke voice channel: " ++ e)])
      | .ok c =>
        let sess2 : MusicSession := { sess1 with voiceConn := some c }
        (updateSession ms2 guildID sess2,
         baseEvs ++ [Event.voiceJoin voiceChannel] ++ workerEvs)
    else (ms2, baseEvs ++ workerEvs)

/-! ## Per-track audio streaming (playAudioStream)

The pipeline per 20 ms frame is: read 3840 PCM bytes from the decode
process (EOF or a read error both end the loop and the function returns
success), decode them into int16 samples (a failure is logged and the
frame skipped), Opus-encode (a failure is logged and the frame skipped),
then submit to the transport with a 5-second bounded wait (a timeout
returns an error).  Each frame read from the decoder is summarised by the
three oracle outcomes below. -/

/-- Outcomes for one fully-read PCM frame: the binary int16 decode, the
Opus encode, and whether the transport accepts the frame within 5 s. -/
structure FrameData where
  pcmDecodeOk : Bool
  encodeOk : Bool
  sendOk : Bool
deriving DecidableEq

/-- Oracle bundle for one playAudioStream run: the metadata call, the
ffmpeg stdout-pipe creation and process start, the Opus encoder
initialisation, and the sequence of fully-read PCM frames (the stream ends
after them, by EOF or read error, both of which end the loop normally). -/
structure PlayEnv where
  getVideo : Except String VideoInfo
  pipeOk : Bool
  startOk : Bool
  encoderOk : Bool
  frames : List FrameData

/-- The audio-format selection of playAudioStream: first itag 251 /
audio-webm, then itag 140 / audio-mp4, then the first format; none only
when the list is empty. -/
def pickFormat (formats : List Format) : Option Format :=
  match formats.find? (fun f => f.itagNo == 251 || containsSeq "audio/webm".data f.mimeType.data) with
  | some f => some f
  | none =>
    match formats.find? (fun f => f.itagNo == 140 || containsSeq "audio/mp4".data f.mimeType.data) with
    | some f => some f
    | none => formats.head?

/-- The frame loop of playAudioStream over the fully-read frames; ends with
success at end-of-stream, or with the transport-timeout error as soon as a
send is not accepted within the bounded wait. -/
def streamLoop : List FrameData → Except String Unit × List Event
  | [] => (.ok (), [])
  | f :: rest =>
    if f.pcmDecodeOk = false then streamLoop rest
    else if f.encodeOk = false then streamLoop rest
    else if f.sendOk then
      let r := streamLoop rest
      (r.1, Event.sendFrame :: r.2)
    else (.error "timeout sending audio frame", [])

/-- Go playAudioStream: precondition checks, metadata, format pick, ffmpeg
spawn, encoder init, speaking-on, frame loop, speaking-off (deferred, so
emitted on every exit path that follows speaking-on). -/
def playAudioStream (vc : Option VoiceConn) (env : PlayEnv) : Except String Unit × List Event :=
  match vc with
  | none => (.error "voice connection tidak ready", [])
  | some c =>
    if c.ready = false then (.error "voice connection tidak ready", [])
    else
      match env.getVideo with
      | .error e => (.error ("gagal ambil info video: " ++ e), [])
      | .ok video =>
        match pickFormat video.audioFormats with
        | none => (.error "tidak ada format audio tersedia", [])
        | some fmt =>
          if env.pipeOk = false then (.error "gagal buat stdout ffmpeg", [])
          else if env.startOk = false then (.error "gagal mulai ffmpeg", [])
          else if env.encoderOk = false then
            (.error "gagal inisialisasi Opus encoder", [Event.spawnDecode fmt.url])
          else
            let r := streamLoop env.frames
            (r.1, Event.spawnDecode fmt.url :: Event.speakingOn :: (r.2 ++ [Event.speakingOff]))

/-! ## Playback worker (startMusicPlayer) -/

/-- Placeholder track for the out-of-range default of list indexing; the
worker only indexes under the loop guard, which keeps the index in range. -/
def dummyTrack : MusicTrack :=
  { title := "", url := "", duration := 0, requester := "", channelID := "", thumbnail := "" }

/-- The chat message sent when playAudioStream returns an error. -/
def playFailText (e : String) : String := "❌ Gagal memutar lagu: " ++ e

/-- One iteration of the startMusicPlayer while loop: announce the current
track, run playAudioStream (its result is the oracle argument; an error is
reported and otherwise ignored), then advance the index. -/
def workerStep (q : MusicQueue) (result : Except String Unit) : MusicQueue × List Event :=
  (advanceQueue q,
   Event.nowPlayingAt q.current (q.tracks.getD q.current dummyTrack) ::
     (match result with
      | .ok _ => []
      | .error e => [Event.msg (playFailText e)]))

/-- The events of the iteration that plays index i (announcement plus the
error report when playback of that index fails). -/
def perTrackEvents (tracks : List MusicTrack) (play : Nat → Except String Unit) (i : Nat) :
    List Event :=
  Event.nowPlayingAt i (tracks.getD i dummyTrack) ::
    (match play i with
     | .ok _ => []
     | .error e => [Event.msg (playFailText e)])

/-- The while loop plus epilogue of startMusicPlayer, with fuel (the Go
loop does not terminate when the loop flag stays set).  `play i` is the
playAudioStream outcome for the track at index i. -/
def runWorker (play : Nat → Except String Unit) : Nat → MusicQueue → MusicQueue × List Event
  | 0, q => (q, [])
  | fuel + 1, q =>
    if q.current < q.tracks.length then
      let s := workerStep q (play q.current)
      let r := runWorker play fuel s.1
      (r.1, s.2 ++ r.2)
    else (exitQueue q, [])

/-- Go startMusicPlayer: raise the playing flag, then run the loop. -/
def startMusicPlayer (play : Nat → Except String Unit) (q : MusicQueue) (fuel : Nat) :
    MusicQueue × List Event :=
  runWorker play fuel { q with isPlaying := true }

/-! ## Reachable queue states

One step per queue mutation the claims quantify over: enqueue (with the
worker start of handlePlayMusic), skip (guarded by a non-empty queue, as
in handleSkipCommand), stop, loop toggle, and the worker advance and
worker exit, each under the condition the Go control flow checks. -/

inductive Reachable : MusicQueue → Prop where
  | init : Reachable freshQueue
  | enqueue (t : MusicTrack) {q : MusicQueue} : Reachable q → Reachable (enqueueStart q t)
  | skip {q : MusicQueue} : Reachable q → q.tracks ≠ [] → Reachable (skipOne q)
  | stop {q : MusicQueue} : Reachable q → Reachable (stopQueue q)
  | loopToggle {q : MusicQueue} : Reachable q → Reachable (toggleLoop q)
  | advance {q : MusicQueue} : Reachable q → q.current < q.tracks.length →
      Reachable (advanceQueue q)
  | exitWorker {q : MusicQueue} : Reachable q → q.tracks.length ≤ q.current →
      Reachable (exitQueue q)

/-- The index invariant exactly as the specification states it: within
[0, len(tracks)) while playing, equal to len(tracks) when idle. -/
def specIndexInvariant (q : MusicQueue) : Prop :=
  (q.isPlaying = true → q.current < q.tracks.length) ∧
    (q.isPlaying = false → q.current = q.tracks.length)

instance (q : MusicQueue) : Decidable (specIndexInvariant q) := by
  unfold specIndexInvariant; infer_instance

/-! ## Theorems -/

/-- The per-track advance never changes the track list. -/
theorem advanceQueue_tracks (q : MusicQueue) : (advanceQueue q).tracks = q.tracks := by
  unfold advanceQueue
  by_cases h : (q.tracks.length ≤ q.current + 1 && q.loop) = true <;> simp [h]

/-- The per-track advance never changes the playing flag. -/
theorem advanceQueue_isPlaying (q : MusicQueue) : (advanceQueue q).isPlaying = q.isPlaying := by
  unfold advanceQueue
  by_cases h : (q.tracks.length ≤ q.current + 1 && q.loop) = true <;> simp [h]

/-- C10: getting-or-creating a guild's music session is idempotent — the
first call returns the stored session or a fresh default one, a second
call on the resulting map returns the same session and leaves the map
unchanged — and a fresh session starts with no tracks, index 0, not
playing, loop off, and volume 1/2. -/
theorem get_or_create_session_idempotent (ms : Sessions) (g : String) :
    (getOrCreateMusicSession ms g).1 = (ms g).getD freshSession ∧
    getOrCreateMusicSession (getOrCreateMusicSession ms g).2 g = getOrCreateMusicSession ms g ∧
    freshSession.queue.tracks = [] ∧ freshSession.queue.current = 0 ∧
    freshSession.queue.isPlaying = false ∧ freshSession.queue.loop = false ∧
    freshSession.queue.volume.num = 1 ∧ freshSession.queue.volume.den = 2 := by
  refine ⟨?_, ?_, rfl, rfl, rfl, rfl, rfl, rfl⟩
  · unfold getOrCreateMusicSession
    cases ms g <;> simp
  · cases h : ms g with
    | some s => simp [getOrCreateMusicSession, h]
    | none => simp [getOrCreateMusicSession, h]

/-- C2: for every prior state, the stop command leaves the guild's session
with isPlaying=false, an empty track list, index 0, and no voice
connection, and emits a disconnect exactly when a transport handle
existed. -/
theorem stop_resets_queue (ms : Sessions) (g : String) :
    ∃ s' : MusicSession,
      (handleStopCommand ms g).1 g = some s' ∧
      s'.queue.isPlaying = false ∧ s'.queue.tracks = [] ∧ s'.queue.current = 0 ∧
      s'.voiceConn = none ∧
      (Event.disconnect ∈ (handleStopCommand ms g).2 ↔
        ((getOrCreateMusicSession ms g).1.voiceConn).isSome = true) := by
  refine ⟨{ queue := stopQueue (getOrCreateMusicSession ms g).1.queue,
            voiceConn := none, lastError := (getOrCreateMusicSession ms g).1.lastError },
          ?_, rfl, rfl, rfl, rfl, ?_⟩
  · simp [handleStopCommand, updateSession]
  · cases h : (getOrCreateMusicSession ms g).1.voiceConn <;>
      simp [handleStopCommand, h]

/-- C9 counterexample: sending `volume 80` to a fresh guild leaves the
queue's volume field at the default 1/2 — the argument is neither stored
as 80 nor as 80/100. -/
theorem volume_not_stored_counterexample :
    ((handleVolumeCommand (fun _ => none) "g" ["volume", "80"]).1 "g").map
        (fun s => (s.queue.volume.num, s.queue.volume.den)) = some (1, 2) ∧
    ((1 : Int), (2 : Nat)) ≠ ((80 : Int), (1 : Nat)) ∧
    ((1 : Int), (2 : Nat)) ≠ ((4 : Int), (5 : Nat)) := by
  refine ⟨?_, by decide, by decide⟩
  rfl

/-- C9 amended: the volume command validates nothing and stores nothing —
when an argument is present the sessions map afterwards is exactly the
get-or-create map (fresh sessions keep the default volume), and with no
argument the map is untouched. -/
theorem volume_command_stores_nothing (ms : Sessions) (g : String) (parts : List String) :
    (handleVolumeCommand ms g parts).1 =
      (if parts.length < 2 then ms else (getOrCreateMusicSession ms g).2) := by
  unfold handleVolumeCommand
  by_cases h : parts.length < 2 <;> simp [h]

/-- A concrete track used in reachable-state counterexamples. -/
def trackA : MusicTrack :=
  { title := "A", url := "uA", duration := 10, requester := "r", channelID := "c",
    thumbnail := "" }

/-- Reachable state violating the idle clause of the spec invariant: queue
idle after a full worker run, tracks retained, index reset to 0 ≠ 1. -/
def idleRetained : MusicQueue :=
  { tracks := [trackA], isPlaying := false, current := 0, loop := false, volume := halfVolume }

/-- Reachable state violating the playing clause of the spec invariant:
skip during playback pushes the index to len(tracks) while playing. -/
def playingPastEnd : MusicQueue :=
  { tracks := [trackA], isPlaying := true, current := 1, loop := false, volume := halfVolume }

/-- C1 counterexample: two reachable queue states violate the stated index
invariant — after enqueue, worker-advance and worker-exit the queue is
idle with tracks=[A] and index 0 ≠ len(tracks)=1, and after enqueue and
skip the queue is playing with index 1 ∉ [0, 1). -/
theorem queue_index_invariant_fails :
    (Reachable idleRetained ∧ ¬ specIndexInvariant idleRetained) ∧
    (Reachable playingPastEnd ∧ ¬ specIndexInvariant playingPastEnd) := by
  refine ⟨⟨?_, by decide⟩, ⟨?_, by decide⟩⟩
  · have h0 := Reachable.enqueue trackA Reachable.init
    have h1 := Reachable.advance h0 (by decide)
    have h2 := Reachable.exitWorker h1 (by decide)
    have he : exitQueue (advanceQueue (enqueueStart freshQueue trackA)) = idleRetained := by
      decide
    exact he ▸ h2
  · have h0 := Reachable.enqueue trackA Reachable.init
    have h1 := Reachable.skip h0 (by decide)
    have he : skipOne (enqueueStart freshQueue trackA) = playingPastEnd := by decide
    exact he ▸ h1

/-- C1 amended: the stated invariant fails (skip is unbounded and worker
exit resets the index to 0 while retaining tracks); what every reachable
queue state does satisfy is: the track list is non-empty whenever the
queue is playing, and when the queue is idle with an empty track list the
index equals len(tracks) (both are 0). -/
theorem queue_reachable_invariant (q : MusicQueue) (h : Reachable q) :
    (q.isPlaying = true → q.tracks ≠ []) ∧
      (q.isPlaying = false → q.tracks = [] → q.current = q.tracks.length) := by
  induction h with
  | init => exact ⟨fun hp => (nomatch hp), fun _ _ => rfl⟩
  | enqueue t hq ih =>
    refine ⟨fun _ => ?_, fun hi _ => (nomatch hi)⟩
    simp [enqueueStart]
  | skip hq hne ih => exact ⟨fun hp => ih.1 hp, fun _ he => absurd he hne⟩
  | stop hq ih => exact ⟨fun hp => (nomatch hp), fun _ _ => rfl⟩
  | loopToggle hq ih => exact ⟨fun hp => ih.1 hp, fun hi he => ih.2 hi he⟩
  | @advance q' hq hlt ih =>
    have htr := advanceQueue_tracks q'
    refine ⟨fun _ he => ?_, fun _ he => ?_⟩ <;>
      (rw [htr] at he; rw [he] at hlt; exact absurd hlt (by simp))
  | @exitWorker q' hq hge ih =>
    refine ⟨fun hp => (nomatch hp), fun _ he => ?_⟩
    have h2 : q'.tracks = [] := he
    simp [exitQueue, h2]

/-- C1 witness: the invariant of queue_reachable_invariant holds at the
initial queue. -/
theorem queue_reachable_invariant_witness :
    (freshQueue.isPlaying = true → freshQueue.tracks ≠ []) ∧
      (freshQueue.isPlaying = false → freshQueue.tracks = [] →
        freshQueue.current = freshQueue.tracks.length) :=
  queue_reachable_invariant freshQueue Reachable.init

/-- With the loop flag off and enough fuel, the worker processes every
index from the current one to the end of the queue, in order and exactly
once, and finishes with the exit epilogue (playing flag down, index 0). -/
theorem runWorker_noLoop (play : Nat → Except String Unit) (fuel : Nat) :
    ∀ q : MusicQueue, q.loop = false → q.tracks.length - q.current < fuel →
      runWorker play fuel q =
        (exitQueue q,
         ((List.range' q.current (q.tracks.length - q.current)).map
             (perTrackEvents q.tracks play)).flatten) := by
  induction fuel with
  | zero => exact fun q _ hf => absurd hf (Nat.not_lt_zero _)
  | succ n ih =>
    intro q hl hf
    by_cases h : q.current < q.tracks.length
    · have hstep : workerStep q (play q.current) =
          ({ q with current := q.current + 1 }, perTrackEvents q.tracks play q.current) := by
        unfold workerStep advanceQueue perTrackEvents
        simp [hl]
      have ihq := ih { q with current := q.current + 1 } hl (by simp; omega)
      have hrange : q.tracks.length - q.current = (q.tracks.length - (q.current + 1)) + 1 := by
        omega
      simp only [runWorker, if_pos h, hstep, ihq]
      rw [hrange, List.range'_succ, List.map_cons, List.flatten_cons]
      rfl
    · have h0 : q.tracks.length - q.current = 0 := by omega
      simp only [runWorker, if_neg h, h0]
      rfl

/-- C3: a failing track never terminates the worker loop and is never
retried — from any queue position, with the loop flag off and one track's
playback failing with error e, the worker still processes every remaining
index exactly once (the trace is exactly the per-index announcements and
error reports, in order), reports e as a user-visible message, and ends
with the playing flag down. -/
theorem worker_continues_after_track_error (q : MusicQueue)
    (play : Nat → Except String Unit) (e : String) (i fuel : Nat)
    (hl : q.loop = false) (hcur : q.current ≤ i) (hi : i < q.tracks.length)
    (hf : q.tracks.length - q.current < fuel) (he : play i = .error e) :
    (runWorker play fuel q).1.isPlaying = false ∧
    (runWorker play fuel q).1.current = 0 ∧
    (runWorker play fuel q).2 =
      ((List.range' q.current (q.tracks.length - q.current)).map
          (perTrackEvents q.tracks play)).flatten ∧
    Event.msg (playFailText e) ∈ (runWorker play fuel q).2 ∧
    Event.nowPlayingAt i (q.tracks.getD i dummyTrack) ∈ (runWorker play fuel q).2 := by
  have hr := runWorker_noLoop play fuel q hl hf
  rw [hr]
  have hmem : i ∈ List.range' q.current (q.tracks.length - q.current) := by
    rw [List.mem_range'_1]
    omega
  refine ⟨rfl, rfl, rfl, ?_, ?_⟩
  · exact List.mem_flatten.mpr
      ⟨perTrackEvents q.tracks play i, List.mem_map_of_mem _ hmem,
       by simp [perTrackEvents, he]⟩
  · exact List.mem_flatten.mpr
      ⟨perTrackEvents q.tracks play i, List.mem_map_of_mem _ hmem,
       List.mem_cons_self _ _⟩

/-- Second track for the worker witness. -/
def trackB : MusicTrack :=
  { title := "B", url := "uB", duration := 5, requester := "r", channelID := "c",
    thumbnail := "" }

/-- Witness queue: two tracks, playing, at index 0, loop off. -/
def witnessQueue : MusicQueue :=
  { tracks := [trackA, trackB], isPlaying := true, current := 0, loop := false,
    volume := halfVolume }

/-- Witness playback oracle: the first track fails, the second plays. -/
def witnessPlay : Nat → Except String Unit :=
  fun i => if i = 0 then .error "boom" else .ok ()

/-- C3 witness: the worker run over the two-track queue whose first track
fails still processes both tracks and reports the error. -/
theorem worker_continues_after_track_error_witness :
    (runWorker witnessPlay 3 witnessQueue).1.isPlaying = false ∧
    (runWorker witnessPlay 3 witnessQueue).1.current = 0 ∧
    (runWorker witnessPlay 3 witnessQueue).2 =
      ((List.range' witnessQueue.current (witnessQueue.tracks.length - witnessQueue.current)).map
          (perTrackEvents witnessQueue.tracks witnessPlay)).flatten ∧
    Event.msg (playFailText "boom") ∈ (runWorker witnessPlay 3 witnessQueue).2 ∧
    Event.nowPlayingAt 0 (witnessQueue.tracks.getD 0 dummyTrack) ∈
      (runWorker witnessPlay 3 witnessQueue).2 :=
  worker_continues_after_track_error witnessQueue witnessPlay "boom" 0 3 rfl
    (Nat.le_refl 0) (by decide) (by decide) rfl

/-- Events that are part of the speaking/frame protocol of the transport. -/
def isSpeechOrFrame : Event → Bool
  | .speakingOn => true
  | .speakingOff => true
  | .sendFrame => true
  | _ => false

/-- Frame-submission events. -/
def isFrameEvent : Event → Bool
  | .sendFrame => true
  | _ => false

/-- The frame loop emits only frame-submission events. -/
theorem streamLoop_frames_only (fs : List FrameData) :
    (streamLoop fs).2.all (fun ev => isFrameEvent ev) = true := by
  induction fs with
  | nil => rfl
  | cons f rest ih =>
    unfold streamLoop
    by_cases h1 : f.pcmDecodeOk = false
    · simpa [h1] using ih
    · by_cases h2 : f.encodeOk = false
      · simpa [h1, h2] using ih
      · by_cases h3 : f.sendOk = true
        · simpa [h1, h2, h3, isFrameEvent] using ih
        · simp [h1, h2, h3]

/-- C4: the paired-signal invariant of playAudioStream — on every run the
event trace either contains no speaking or frame event at all (failure
before the transport is touched), or it splits as a prefix without
speaking/frame events, then speaking-on, then only frame submissions, then
exactly one trailing speaking-off; so no frame precedes speaking-on and
speaking-off is emitted exactly once, last, on every exit path that
follows speaking-on. -/
theorem speaking_signal_paired (vc : Option VoiceConn) (env : PlayEnv) :
    ((playAudioStream vc env).2.all (fun ev => !isSpeechOrFrame ev) = true) ∨
    (∃ pre mid, (playAudioStream vc env).2 =
        pre ++ Event.speakingOn :: (mid ++ [Event.speakingOff]) ∧
      pre.all (fun ev => !isSpeechOrFrame ev) = true ∧
      mid.all (fun ev => isFrameEvent ev) = true) := by
  obtain ⟨gv, pk, sk, ek, fr⟩ := env
  unfold playAudioStream
  cases vc with
  | none => exact Or.inl rfl
  | some c =>
    dsimp only
    by_cases hr : c.ready = false
    · rw [if_pos hr]
      exact Or.inl rfl
    · rw [if_neg hr]
      cases gv with
      | error e => exact Or.inl rfl
      | ok video =>
        cases hf : pickFormat video.audioFormats with
        | none =>
          simp only [hf]
          exact Or.inl rfl
        | some fmt =>
          simp only [hf]
          cases pk
          · exact Or.inl rfl
          · cases sk
            · exact Or.inl rfl
            · cases ek
              · exact Or.inl rfl
              · exact Or.inr ⟨[Event.spawnDecode fmt.url], (streamLoop fr).2,
                  rfl, rfl, streamLoop_frames_only fr⟩

/-- The audio format used by the concrete streaming scenarios. -/
def zeroByteFormat : Format := { itagNo := 251, mimeType := "audio/webm", url := "u" }

/-- The video metadata used by the concrete streaming scenarios. -/
def zeroByteVideo : VideoInfo :=
  { title := "T", duration := 0, thumbnails := [], audioFormats := [zeroByteFormat] }

/-- A playback attempt whose decode process produces zero bytes of PCM:
everything up to the frame loop succeeds and the stream is empty. -/
def zeroByteEnv : PlayEnv :=
  { getVideo := .ok zeroByteVideo, pipeOk := true, startOk := true, encoderOk := true,
    frames := [] }

/-- C5 counterexample: with a ready connection and a decode process that
produces zero bytes, playAudioStream returns success — no
DecodeProcessError (no error at all) is surfaced. -/
theorem zero_byte_stream_returns_ok :
    playAudioStream (some { ready := true }) zeroByteEnv =
      (.ok (), [Event.spawnDecode "u", Event.speakingOn, Event.speakingOff]) ∧
    zeroByteEnv.frames = [] := by
  exact ⟨rfl, rfl⟩

/-- C5 amended: a zero-byte decode stream is treated as an immediate,
normal end-of-stream — playAudioStream returns success with no frame
submitted (so no error is surfaced and no error message is emitted), and
the worker advances past the track exactly as after a successful
playback. -/
theorem zero_byte_stream_no_error (c : VoiceConn) (env : PlayEnv) (v : VideoInfo)
    (f : Format) (q : MusicQueue)
    (hr : c.ready = true) (hv : env.getVideo = .ok v) (hp : env.pipeOk = true)
    (hs : env.startOk = true) (he : env.encoderOk = true)
    (hfmt : pickFormat v.audioFormats = some f) (hz : env.frames = []) :
    playAudioStream (some c) env =
      (.ok (), [Event.spawnDecode f.url, Event.speakingOn, Event.speakingOff]) ∧
    (workerStep q (.ok ())).1 = advanceQueue q := by
  refine ⟨?_, rfl⟩
  unfold playAudioStream
  rw [hv]
  simp [hr, hfmt, hp, hs, he, hz, streamLoop]

/-- C5 witness: the amended statement at the concrete zero-byte scenario. -/
theorem zero_byte_stream_no_error_witness :
    playAudioStream (some { ready := true }) zeroByteEnv =
      (.ok (), [Event.spawnDecode zeroByteFormat.url, Event.speakingOn, Event.speakingOff]) ∧
    (workerStep freshQueue (.ok ())).1 = advanceQueue freshQueue :=
  zero_byte_stream_no_error { ready := true } zeroByteEnv zeroByteVideo zeroByteFormat
    freshQueue rfl rfl rfl rfl rfl rfl rfl

/-- The frame loop stops with the transport-timeout error at the first
frame whose send is not accepted, after submitting exactly the
successfully encoded earlier frames; later frames are not touched and the
failing frame is not submitted. -/
theorem streamLoop_timeout (fd : FrameData) (fs1 fs2 : List FrameData)
    (h1 : ∀ g ∈ fs1, g.pcmDecodeOk = true → g.encodeOk = true → g.sendOk = true)
    (hd : fd.pcmDecodeOk = true) (hen : fd.encodeOk = true) (hsd : fd.sendOk = false) :
    streamLoop (fs1 ++ fd :: fs2) =
      (.error "timeout sending audio frame",
       List.replicate (fs1.countP (fun g => g.pcmDecodeOk && g.encodeOk)) Event.sendFrame) := by
  induction fs1 with
  | nil =>
    unfold streamLoop
    simp [hd, hen, hsd]
  | cons g rest ih =>
    have hg := h1 g (List.mem_cons_self g rest)
    have hrest : ∀ x ∈ rest, x.pcmDecodeOk = true → x.encodeOk = true → x.sendOk = true :=
      fun x hx => h1 x (List.mem_cons_of_mem _ hx)
    have ihr := ih hrest
    rw [List.cons_append]
    unfold streamLoop
    by_cases hpc : g.pcmDecodeOk = false
    · simp [hpc, ihr, List.countP_cons]
    · have hpc' : g.pcmDecodeOk = true := by revert hpc; cases g.pcmDecodeOk <;> simp
      by_cases henc : g.encodeOk = false
      · simp [hpc, henc, ihr, List.countP_cons]
      · have henc' : g.encodeOk = true := by revert henc; cases g.encodeOk <;> simp
        have hsend : g.sendOk = true := hg hpc' henc'
        simp [hpc, henc, hsend, ihr, List.countP_cons, hpc', henc', List.replicate_succ]

/-- C6: when the transport does not accept a frame within the bounded
5-second wait (send outcome false), playAudioStream returns the
transport-timeout error and playback of the track aborts — the trace shows
only the earlier accepted frames (the dropped frame is never submitted,
nothing after it is processed) and the speaking-off release. -/
theorem frame_send_timeout_aborts (c : VoiceConn) (env : PlayEnv) (v : VideoInfo)
    (f : Format) (fd : FrameData) (fs1 fs2 : List FrameData)
    (hr : c.ready = true) (hv : env.getVideo = .ok v) (hp : env.pipeOk = true)
    (hs : env.startOk = true) (hen : env.encoderOk = true)
    (hfmt : pickFormat v.audioFormats = some f)
    (hfr : env.frames = fs1 ++ fd :: fs2)
    (h1 : ∀ g ∈ fs1, g.pcmDecodeOk = true → g.encodeOk = true → g.sendOk = true)
    (hd : fd.pcmDecodeOk = true) (hfe : fd.encodeOk = true) (hfs : fd.sendOk = false) :
    playAudioStream (some c) env =
      (.error "timeout sending audio frame",
       Event.spawnDecode f.url :: Event.speakingOn ::
         (List.replicate (fs1.countP (fun g => g.pcmDecodeOk && g.encodeOk)) Event.sendFrame ++
          [Event.speakingOff])) := by
  have hsl := streamLoop_timeout fd fs1 fs2 h1 hd hfe hfs
  unfold playAudioStream
  rw [hv]
  simp [hr, hfmt, hp, hs, hen, hfr, hsl]

/-- Stream with one accepted frame, then a frame the transport does not
accept within the bounded wait, then one more (never reached) frame. -/
def timeoutEnv : PlayEnv :=
  { getVideo := .ok zeroByteVideo, pipeOk := true, startOk := true, encoderOk := true,
    frames := [⟨true, true, true⟩, ⟨true, true, false⟩, ⟨true, true, true⟩] }

/-- C6 witness: the timeout theorem at the concrete three-frame stream. -/
theorem frame_send_timeout_aborts_witness :
    playAudioStream (some { ready := true }) timeoutEnv =
      (.error "timeout sending audio frame",
       Event.spawnDecode zeroByteFormat.url :: Event.speakingOn ::
         (List.replicate
            (List.countP (fun g => g.pcmDecodeOk && g.encodeOk)
              [(⟨true, true, true⟩ : FrameData)]) Event.sendFrame ++
          [Event.speakingOff])) :=
  frame_send_timeout_aborts { ready := true } timeoutEnv zeroByteVideo zeroByteFormat
    ⟨true, true, false⟩ [⟨true, true, true⟩] [⟨true, true, true⟩]
    rfl rfl rfl rfl rfl rfl rfl (by decide) rfl rfl rfl

/-- Events that start an external process or a playback worker (which is
the only path to a decode-process spawn). -/
def isProcessEvent : Event → Bool
  | .spawnDecode _ => true
  | .spawnExtractor _ => true
  | .startWorker _ => true
  | _ => false

/-- C7: a query classified as a Spotify link (not a YouTube URL, matching
the Spotify pattern) makes resolution fail with the explicit
unsupported-source guidance message; the play handler then changes no
session state (the track is not enqueued), spawns no process and starts no
worker, and the only output is the loading message edited to the error. -/
theorem spotify_url_unsupported (api : YtApi) (env : ConnectEnv) (ms : Sessions)
    (guildID query author textChannel voiceChannel : String)
    (hy : isYouTubeURL query = false) (hs : isSpotifyURL query = true) :
    extractMusicInfo api query = (.error spotifyUnsupportedMsg, []) ∧
    (handlePlayMusic api env ms guildID query author textChannel voiceChannel).1 = ms ∧
    (handlePlayMusic api env ms guildID query author textChannel voiceChannel).2 =
      [Event.msg "🔍 Mencari lagu...",
       Event.editMsg ("❌ Gagal mengambil informasi lagu: " ++ spotifyUnsupportedMsg)] ∧
    (handlePlayMusic api env ms guildID query author textChannel voiceChannel).2.all
      (fun ev => !isProcessEvent ev) = true := by
  have hx : extractMusicInfo api query = (.error spotifyUnsupportedMsg, []) := by
    unfold extractMusicInfo
    rw [hy, hs]
    rfl
  refine ⟨hx, ?_, ?_, ?_⟩ <;> simp [handlePlayMusic, hx, isProcessEvent]

/-- An environment in which every external metadata call fails. -/
def noApi : YtApi :=
  { getVideo := fun _ => .error "api", ytDlpTitle := fun _ => .error "no" }

/-- C7 witness: the Spotify theorem at a concrete open.spotify.com URL. -/
theorem spotify_url_unsupported_witness :
    extractMusicInfo noApi "https://open.spotify.com/track/x" =
      (.error spotifyUnsupportedMsg, []) ∧
    (handlePlayMusic noApi { join := .error "j" } (fun _ => none) "g"
        "https://open.spotify.com/track/x" "a" "t" "v").1 = (fun _ => none) ∧
    (handlePlayMusic noApi { join := .error "j" } (fun _ => none) "g"
        "https://open.spotify.com/track/x" "a" "t" "v").2 =
      [Event.msg "🔍 Mencari lagu...",
       Event.editMsg ("❌ Gagal mengambil informasi lagu: " ++ spotifyUnsupportedMsg)] ∧
    (handlePlayMusic noApi { join := .error "j" } (fun _ => none) "g"
        "https://open.spotify.com/track/x" "a" "t" "v").2.all
      (fun ev => !isProcessEvent ev) = true :=
  spotify_url_unsupported noApi { join := .error "j" } (fun _ => none) "g"
    "https://open.spotify.com/track/x" "a" "t" "v" (by decide) (by decide)

/-- C8: when the platform metadata API call fails on a URL, resolution does
not fail — it falls back to the command-line extractor and produces a
track with the extractor's trimmed title (or the default "YouTube Video"
when the extractor fails or outputs nothing), the queried URL, zero
(unknown) duration and no thumbnail. -/
theorem youtube_api_failure_fallback (api : YtApi) (url e : String)
    (h : api.getVideo url = .error e) :
    extractYouTubeInfo api url =
      (.ok { title := (match api.ytDlpTitle url with
                       | .ok raw => if raw.length > 0 then raw.trim else "YouTube Video"
                       | .error _ => "YouTube Video"),
             url := url, duration := 0, requester := "", channelID := "", thumbnail := "" },
       [Event.spawnExtractor url]) := by
  unfold extractYouTubeInfo
  rw [h]
  rfl

/-- C8 witness: the fallback theorem at a concrete URL with a failing API
and a failing extractor. -/
theorem youtube_api_failure_fallback_witness :
    extractYouTubeInfo noApi "https://youtu.be/x" =
      (.ok { title := (match noApi.ytDlpTitle "https://youtu.be/x" with
                       | .ok raw => if raw.length > 0 then raw.trim else "YouTube Video"
                       | .error _ => "YouTube Video"),
             url := "https://youtu.be/x", duration := 0, requester := "", channelID := "",
             thumbnail := "" },
       [Event.spawnExtractor "https://youtu.be/x"]) :=
  youtube_api_failure_fallback noApi "https://youtu.be/x" "api" rfl

end PlayStats
